import Mathlib

/-!
# CitySearcher — a shallow embedding of the core model and services

This file embeds the parts of the CitySearcher repository that the
specification's claims are about:

* `src/models/city_model.cpp` — the `CityModel` value record and its ordering;
* `src/models/city_list_model.cpp` — the deduplicating, sorted aggregator
  (`addCity`, `addCities`, `filterDuplicates`, `isDuplicate`, `sortCities`);
* `src/services/mock_city_search_service.cpp` — the deterministic mock backend
  (`searchCities`, `cancelSearch`, `simulateSearchCompleted`, `createMockCities`);
* `src/viewmodels/city_search_viewmodel.cpp` — the search session
  (`searchCities`, `setServiceType`, `setIsSearching`, `setErrorMessage`);
* `src/factories/city_search_service_factory.cpp` — the backend registry;
* `src/services/nominatim_service.cpp` — `parseJsonResponse` / `createCityFromJson`.

Modelling conventions:

* `QString` is modelled as `List Char` (`Str`), with the handful of QString
  operations the code uses (`toLower`, `trimmed`, `contains`, `split`,
  lexicographic `<`) written out over char lists so that everything
  kernel-evaluates.
* `double` coordinates are modelled as `Rat`; every numeric literal of the
  source has an exact decimal value, written here with `mkRat`.  The coordinate
  arithmetic the code performs (subtraction, `qAbs`, strict `<` against the
  0.001 threshold) is exact on these values.
* Qt signal/slot connections in this program are direct (same-thread)
  connections: a signal emission is a synchronous call of the connected slots.
  Service routines are therefore modelled as functions returning the new
  service state together with the list of emitted events, which the view model
  then folds over in emission order.
-/

/-- Strings are modelled as lists of characters (QString is a char sequence). -/
abbrev Str := List Char

/-- Convert a Lean string literal to the model's string type. -/
def str (s : String) : Str := s.data

/-- Character comparison by code point (QChar comparison is by code unit). -/
def charLtB (a b : Char) : Bool := decide (a < b)

/-- Lexicographic `<` on strings, as `QString::operator<`. -/
def strLtB : Str → Str → Bool
  | [], [] => false
  | [], _ :: _ => true
  | _ :: _, [] => false
  | a :: as, b :: bs => charLtB a b || (a == b && strLtB as bs)

/-- `QString::toLower` (ASCII case folding suffices for the data in play). -/
def lowerS (s : Str) : Str := s.map Char.toLower

/-- Whitespace test used by `QString::trimmed`. -/
def isSpaceB (c : Char) : Bool := c == ' ' || c == '\t' || c == '\n' || c == '\r'

/-- `QString::trimmed`: strip leading and trailing whitespace. -/
def trimS (s : Str) : Str :=
  ((s.dropWhile isSpaceB).reverse.dropWhile isSpaceB).reverse

/-- Does `s` start with `pre`? (helper for substring containment). -/
def startsWithS : Str → Str → Bool
  | _, [] => true
  | [], _ :: _ => false
  | a :: as, b :: bs => a == b && startsWithS as bs

/-- `QString::contains(sub)`: substring containment. -/
def containsS : Str → Str → Bool
  | s, sub =>
    if startsWithS s sub then true
    else
      match s with
      | [] => false
      | _ :: t => containsS t sub

/-- The prefix of `s` up to the first occurrence of `sep` (the first element of
`QString::split(sep)`; the whole string when `sep` does not occur). -/
def firstPartS (sep : Str) : Str → Str
  | [] => []
  | c :: t => if startsWithS (c :: t) sep then [] else c :: firstPartS sep t

/-- `qAbs` on rationals. -/
def qAbs (x : Rat) : Rat := if x < 0 then -x else x

/-- Subtraction of rationals, written out on numerators and denominators so
that it evaluates inside the kernel; `ratSub_eq` below proves it equal to the
ordinary subtraction `a - b`. -/
def ratSub (a b : Rat) : Rat :=
  mkRat (a.num * b.den - b.num * a.den) (a.den * b.den)

/-- A located place — the data of `CityModel`
(`src/models/city_model.h/.cpp`). -/
structure City where
  name : Str
  displayName : Str
  country : Str
  latitude : Rat
  longitude : Rat
deriving DecidableEq

/-- `QString::compare(..., Qt::CaseInsensitive) == 0`, i.e. equality after
case folding. -/
def ciEq (a b : Str) : Bool := lowerS a == lowerS b

/-- `CityListModel::areCoordinatesClose` (`city_list_model.cpp:193-203`):
both coordinate differences strictly below the 0.001 threshold. -/
def areCoordinatesClose (lat1 lon1 lat2 lon2 : Rat) : Bool :=
  let threshold : Rat := mkRat 1 1000
  let latDiff := qAbs (ratSub lat1 lat2)
  let lonDiff := qAbs (ratSub lon1 lon2)
  latDiff < threshold && lonDiff < threshold

/-- `CityListModel::isDuplicate` (`city_list_model.cpp:166-191`): OR of the
display-name check, the (name, country) check, and the coordinate check. -/
def isDuplicate (newCity existingCity : City) : Bool :=
  ciEq newCity.displayName existingCity.displayName
  || (ciEq newCity.name existingCity.name && ciEq newCity.country existingCity.country)
  || areCoordinatesClose newCity.latitude newCity.longitude
       existingCity.latitude existingCity.longitude

/-- The sort key of `CityListModel::sortCities`: the lowercased display name. -/
def cityKey (c : City) : Str := lowerS c.displayName

/-- The non-strict order induced by the comparator of
`CityListModel::sortCities`: `a` may precede `b` iff
`¬ (b->displayName().toLower() < a->displayName().toLower())`. -/
def keyLE (a b : City) : Prop := strLtB (cityKey b) (cityKey a) = false

instance : DecidableRel keyLE := by
  unfold keyLE; infer_instance

/-- `CityListModel::sortCities` (`city_list_model.cpp:111-121`):
`std::ranges::sort` with the strict comparator
`a->displayName().toLower() < b->displayName().toLower()`.  `std::sort` leaves
the algorithm unspecified; it guarantees a permutation ordered by the
comparator, which insertion sort realises (on the duplicate-free collections
the model maintains, sort keys are pairwise distinct, so every correct sort
produces the same list). -/
def sortCities (m : List City) : List City :=
  List.insertionSort keyLE m

/-- `CityListModel::addCity` (`city_list_model.cpp:52-72`): null is dropped;
a duplicate of any existing member is dropped; otherwise append and sort.
The `Option` argument models the `CityModel*` that may be null. -/
def addCity (m : List City) (c? : Option City) : List City :=
  match c? with
  | none => m
  | some c =>
    if m.any (fun existing => isDuplicate c existing) then m
    else sortCities (m ++ [c])

/-- One step of the `filterDuplicates` loop (`city_list_model.cpp:133-157`):
accept `c` only if it duplicates neither an existing member nor an already
accepted batch member. -/
def fdStep (m : List City) (acc : List City) (c : City) : List City :=
  if m.any (fun existing => isDuplicate c existing)
     || acc.any (fun other => isDuplicate c other) then acc
  else acc ++ [c]

/-- `CityListModel::filterDuplicates` (`city_list_model.cpp:123-164`):
drop nulls, then a single pass filtering against the existing collection and
against the batch members accepted earlier in the same batch. -/
def filterDuplicates (m : List City) (cities : List (Option City)) : List City :=
  (cities.filterMap id).foldl (fdStep m) []

/-- `CityListModel::addCities` (`city_list_model.cpp:90-109`): empty input is a
no-op; the filtered unique cities are appended and the collection re-sorted
(no sort happens when nothing is appended). -/
def addCities (m : List City) (cities : List (Option City)) : List City :=
  if cities.isEmpty then m
  else
    let uniqueCities := filterDuplicates m cities
    if uniqueCities.isEmpty then m
    else sortCities (m ++ uniqueCities)

/-- `CityListModel::clear` (`city_list_model.cpp:74-83`). -/
def clearCities (_ : List City) : List City := []

/-- The mutating operations of the aggregator. -/
inductive AggOp where
  | add (c? : Option City)
  | addBatch (cs : List (Option City))
  | clear
deriving DecidableEq

/-- Apply one aggregator operation. -/
def applyOp (m : List City) : AggOp → List City
  | .add c? => addCity m c?
  | .addBatch cs => addCities m cs
  | .clear => clearCities m

/-- The aggregator state after a sequence of operations on a fresh model. -/
def runOps (ops : List AggOp) : List City :=
  ops.foldl applyOp []

/-- The total City ordering of `CityModel::operator<=>`
(`city_model.cpp:88-107`): case-insensitive display name, then country
(case-sensitive), then latitude, then longitude. -/
def cityLE (a b : City) : Prop :=
  strLtB (lowerS a.displayName) (lowerS b.displayName) = true ∨
  (lowerS a.displayName = lowerS b.displayName ∧
    (strLtB a.country b.country = true ∨ (a.country = b.country ∧
      (a.latitude < b.latitude ∨ (a.latitude = b.latitude ∧ a.longitude ≤ b.longitude)))))

instance : DecidablePred fun p : City × City => cityLE p.1 p.2 := by
  intro p; unfold cityLE; infer_instance

instance (a b : City) : Decidable (cityLE a b) := by
  unfold cityLE; infer_instance

/-! ## The mock search backend (`src/services/mock_city_search_service.cpp`)

The mock's error injection (`setSimulateErrors`) draws from a process-global
random generator; the claims under consideration concern the deterministic
configuration, so the model fixes `simulateErrors_ = false` (its default), and
`shouldSimulateError()` is the constant `false` the source then returns. -/

/-- Events emitted by an `ICitySearchService` (its Qt signals). -/
inductive SEvent where
  | started
  | citiesFound (cs : List City)
  | searchError (msg : Str)
  | finished
deriving DecidableEq

/-- State of `MockCitySearchService` (`mock_city_search_service.h`).
`timerPending` models whether the single-shot `delayTimer_` is running;
`backendCalls` counts invocations of `searchCities` (the source logs on every
entry), used only to observe whether the backend was invoked at all. -/
structure MockState where
  simulateDelay : Bool := true
  includeDuplicates : Bool := true
  customResults : List City := []
  timerPending : Bool := false
  isSearching : Bool := false
  currentQuery : Str := []
  lastError : Str := []
  successCount : Nat := 0
  failureCount : Nat := 0
  backendCalls : Nat := 0
deriving DecidableEq

/-- `MockCitySearchService::updateStats` (`mock_city_search_service.cpp:172-181`). -/
def updateStats (s : MockState) (success : Bool) (errorMessage : Str := []) : MockState :=
  if success then { s with successCount := s.successCount + 1, lastError := [] }
  else { s with failureCount := s.failureCount + 1, lastError := errorMessage }

/-- The built-in table of `MockCitySearchService::createMockCities`
(`mock_city_search_service.cpp:196-216`): (name, country, lat, lon). -/
def mockData : List (Str × Str × Rat × Rat) :=
  [ (str "Berlin", str "Germany", mkRat 525200 10000, mkRat 134050 10000),
    (str "Munich", str "Germany", mkRat 481351 10000, mkRat 115820 10000),
    (str "Hamburg", str "Germany", mkRat 535511 10000, mkRat 99937 10000),
    (str "Cologne", str "Germany", mkRat 509375 10000, mkRat 69603 10000),
    (str "Frankfurt", str "Germany", mkRat 501109 10000, mkRat 86821 10000),
    (str "New York", str "United States", mkRat 407128 10000, mkRat (-740060) 10000),
    (str "Los Angeles", str "United States", mkRat 340522 10000, mkRat (-1182437) 10000),
    (str "Chicago", str "United States", mkRat 418781 10000, mkRat (-876298) 10000),
    (str "San Francisco", str "United States", mkRat 377749 10000, mkRat (-1224194) 10000),
    (str "London", str "United Kingdom", mkRat 515074 10000, mkRat (-1278) 10000),
    (str "Manchester", str "United Kingdom", mkRat 534808 10000, mkRat (-22426) 10000),
    (str "Birmingham", str "United Kingdom", mkRat 524862 10000, mkRat (-18904) 10000),
    (str "Paris", str "France", mkRat 488566 10000, mkRat 23522 10000),
    (str "Lyon", str "France", mkRat 457640 10000, mkRat 48357 10000),
    (str "Marseille", str "France", mkRat 432965 10000, mkRat 53698 10000),
    (str "Berlin", str "Germany", mkRat 525201 10000, mkRat 134051 10000),
    (str "London", str "United Kingdom", mkRat 515074 10000, mkRat (-1278) 10000),
    (str "Paris", str "France", mkRat 488566 10000, mkRat 23522 10000) ]

/-- `"%1, %2"` formatting of a display name from name and country. -/
def mkDisplayName (name country : Str) : Str :=
  name ++ str ", " ++ country

/-- The extra mutually-duplicate entries added when `includeDuplicates_` is set
and the query mentions "test" (`mock_city_search_service.cpp:231-243`). -/
def testDuplicateCities : List City :=
  let testName := str "Test City"
  let testCountry := str "Test Country"
  let testDisplayName := mkDisplayName testName testCountry
  [ ⟨testName, testDisplayName, testCountry, mkRat 500 10, mkRat 100 10⟩,
    ⟨testName, testDisplayName, testCountry, mkRat 500001 10000, mkRat 100001 10000⟩,
    ⟨testName, testDisplayName, testCountry, mkRat 500 10, mkRat 100 10⟩,
    ⟨str "Test City", str "Test City, Test Country", str "Test Country",
      mkRat 501 10, mkRat 101 10⟩ ]

/-- `MockCitySearchService::createMockCities` (`mock_city_search_service.cpp:183-266`). -/
def createMockCities (includeDuplicates : Bool) (query : Str) : List City :=
  let lowerQuery := lowerS query
  let fromTable :=
    (mockData.filter fun d =>
      containsS (lowerS d.1) lowerQuery
      || containsS (lowerS d.2.1) lowerQuery
      || containsS lowerQuery (lowerS d.1)).map
      fun d => City.mk d.1 (mkDisplayName d.1 d.2.1) d.2.1 d.2.2.1 d.2.2.2
  let withDups :=
    if includeDuplicates && containsS lowerQuery (str "test") then
      fromTable ++ testDuplicateCities
    else fromTable
  if withDups.isEmpty && !lowerQuery.isEmpty then
    (List.range (min 3 lowerQuery.length)).map fun i =>
      let mockName := str "Mock City " ++ str (toString (i + 1)) ++ str " (" ++ query ++ str ")"
      let mockCountry := str "Mock Country"
      ⟨mockName, mkDisplayName mockName mockCountry, mockCountry,
        mkRat (500 + Int.ofNat i) 10, mkRat (100 + Int.ofNat i) 10⟩
  else withDups

/-- The results `simulateSearchCompleted` returns
(`mock_city_search_service.cpp:143-156`): custom results if configured,
otherwise generated from the current query. -/
def mockResultsFor (s : MockState) : List City :=
  if !s.customResults.isEmpty then s.customResults
  else createMockCities s.includeDuplicates s.currentQuery

/-- `MockCitySearchService::simulateSearchCompleted`
(`mock_city_search_service.cpp:123-170`), with error simulation off. -/
def simulateSearchCompleted (s : MockState) : MockState × List SEvent :=
  if !s.isSearching then (s, [])
  else
    let s := { s with isSearching := false }
    let results := mockResultsFor s
    if results.isEmpty then
      let err := str "No mock cities found for query: " ++ s.currentQuery
      (updateStats s false err, [.searchError err, .finished])
    else
      (updateStats s true, [.citiesFound results, .finished])

/-- `MockCitySearchService::cancelSearch` (`mock_city_search_service.cpp:48-58`):
stop the timer, drop the searching flag, emit `finished`; a no-op when idle. -/
def mockCancelSearch (s : MockState) : MockState × List SEvent :=
  if s.isSearching then
    ({ s with timerPending := false, isSearching := false }, [.finished])
  else (s, [])

/-- `MockCitySearchService::searchCities` (`mock_city_search_service.cpp:14-46`). -/
def mockSearchCities (s : MockState) (query : Str) : MockState × List SEvent :=
  let s := { s with backendCalls := s.backendCalls + 1 }
  if (trimS query).isEmpty then
    let err := str "Please enter a search query"
    (updateStats s false err, [.searchError err])
  else
    let (s, cancelEvents) :=
      if s.isSearching then mockCancelSearch s else (s, [])
    let s := { s with currentQuery := query, isSearching := true }
    if s.simulateDelay then
      ({ s with timerPending := true }, cancelEvents ++ [.started])
    else
      let (s, doneEvents) := simulateSearchCompleted s
      (s, cancelEvents ++ [.started] ++ doneEvents)

/-- The single-shot timer fires: the pending flag clears and the connected
slot `simulateSearchCompleted` runs. -/
def mockTimerFire (s : MockState) : MockState × List SEvent :=
  simulateSearchCompleted { s with timerPending := false }

/-! ## The search session (`src/viewmodels/city_search_viewmodel.cpp`) -/

/-- Observable state of `CitySearchViewModel` together with its owned mock
backend. -/
structure VMState where
  cityList : List City := []
  errorMessage : Str := []
  isSearching : Bool := false
  service : MockState := {}
deriving DecidableEq

/-- Notifications the view model emits to its own observers. -/
inductive VMEvent where
  | isSearchingChanged
  | errorMessageChanged
  | searchCompleted (resultCount : Nat)
deriving DecidableEq

/-- `CitySearchViewModel::setIsSearching` (`city_search_viewmodel.cpp:157-163`):
store and notify only on an actual change. -/
def setIsSearching (v : VMState) (searching : Bool) : VMState × List VMEvent :=
  if v.isSearching != searching then
    ({ v with isSearching := searching }, [.isSearchingChanged])
  else (v, [])

/-- `CitySearchViewModel::setErrorMessage` (`city_search_viewmodel.cpp:165-171`):
store and notify only on an actual change. -/
def setErrorMessage (v : VMState) (message : Str) : VMState × List VMEvent :=
  if v.errorMessage != message then
    ({ v with errorMessage := message }, [.errorMessageChanged])
  else (v, [])

/-- The view model's slot reaction to one backend event
(`onServiceCitiesFound` / `onServiceSearchError` / `onServiceSearchStarted` /
`onServiceSearchFinished`, `city_search_viewmodel.cpp:129-155`). -/
def vmApplyEvent (v : VMState) : SEvent → VMState
  | .started => (setIsSearching v true).1
  | .finished => (setIsSearching v false).1
  | .searchError msg => (setErrorMessage v msg).1
  | .citiesFound cs => { v with cityList := addCities v.cityList (cs.map some) }

/-- Deliver a list of backend events in order. -/
def vmApplyEvents (v : VMState) (events : List SEvent) : VMState :=
  events.foldl vmApplyEvent v

/-- `CitySearchViewModel::searchCities` (`city_search_viewmodel.cpp:72-85`):
clear previous results and error, then delegate to the service (whose
synchronously emitted signals are delivered as direct slot calls). -/
def vmSearchCities (v : VMState) (query : Str) : VMState :=
  let v := { v with cityList := clearCities v.cityList }
  let v := (setErrorMessage v []).1
  let (ms, events) := mockSearchCities v.service query
  vmApplyEvents { v with service := ms } events

/-- The service's delay timer fires (only a running timer can fire). -/
def vmTimerFire (v : VMState) : VMState :=
  if v.service.timerPending then
    let (ms, events) := mockTimerFire v.service
    vmApplyEvents { v with service := ms } events
  else v

/-- External stimuli of a session. -/
inductive Step where
  | search (query : Str)
  | timerFire
deriving DecidableEq

/-- Run a sequence of stimuli. -/
def runSteps (v : VMState) : List Step → VMState
  | [] => v
  | .search q :: rest => runSteps (vmSearchCities v q) rest
  | .timerFire :: rest => runSteps (vmTimerFire v) rest

/-- The session state an observer can see (everything except the
invocation-counting instrumentation field `backendCalls`). -/
def observable (v : VMState) :
    List City × Str × Bool × (Bool × Bool × List City × Bool × Bool × Str × Str × Nat × Nat) :=
  (v.cityList, v.errorMessage, v.isSearching,
    (v.service.simulateDelay, v.service.includeDuplicates, v.service.customResults,
     v.service.timerPending, v.service.isSearching, v.service.currentQuery,
     v.service.lastError, v.service.successCount, v.service.failureCount))

/-! ## The backend registry (`src/factories/city_search_service_factory.cpp`)
and backend switching (`CitySearchViewModel::setServiceType`) -/

/-- `CitySearchServiceFactory::ServiceType` (`city_search_service_factory.h`). -/
inductive ServiceType where
  | Nominatim
  | GooglePlaces
  | Mock
deriving DecidableEq

/-- `CitySearchServiceFactory::defaultService` (`city_search_service_factory.cpp:37-40`). -/
def defaultService : ServiceType := .Nominatim

/-- `CitySearchServiceFactory::serviceTypeToString` (`city_search_service_factory.cpp:42-52`). -/
def serviceTypeToString : ServiceType → Str
  | .Nominatim => str "Nominatim"
  | .Mock => str "Mock"
  | _ => str "Unknown"

/-- `CitySearchServiceFactory::serviceTypeFromString`
(`city_search_service_factory.cpp:54-61`): unknown names fall back to the
default service. -/
def serviceTypeFromString (name : Str) : ServiceType :=
  if name = str "Nominatim" then .Nominatim
  else if name = str "Mock" then .Mock
  else defaultService

/-- `CitySearchServiceFactory::availableServices` (`city_search_service_factory.cpp:29-35`). -/
def availableServices : List Str :=
  [serviceTypeToString .Nominatim, serviceTypeToString .Mock]

/-- `CitySearchServiceFactory::isServiceAvailable` (`city_search_service_factory.cpp:63-72`). -/
def isServiceAvailable : ServiceType → Bool
  | .Nominatim => true
  | .Mock => true
  | _ => false

/-- `CitySearchServiceFactory::createService` (`city_search_service_factory.cpp:13-27`):
`Nominatim` and `Mock` construct; the `default` branch falls back to Nominatim.
The model records which service was constructed (`none` would be a null
service, which no reachable branch produces). -/
def createService : ServiceType → Option ServiceType
  | .Nominatim => some .Nominatim
  | .Mock => some .Mock
  | t => if t = t then some .Nominatim else none

/-- `ICitySearchService::serviceName()` of the constructed backend
(`nominatim_service.cpp:178-181`, `mock_city_search_service.cpp:65-68`). -/
def serviceName : ServiceType → Str
  | .Nominatim => str "Nominatim"
  | .GooglePlaces => str "GooglePlaces"
  | .Mock => str "Mock"

/-- The slice of view-model state that `setServiceType` manipulates. -/
structure BackendVM where
  currentService : ServiceType := defaultService
  errorMessage : Str := []
deriving DecidableEq

/-- `CitySearchViewModel::setServiceType` (`city_search_viewmodel.cpp:42-60`). -/
def setServiceType (v : BackendVM) (serviceTypeName : Str) : BackendVM :=
  let serviceType := serviceTypeFromString serviceTypeName
  if !isServiceAvailable serviceType then
    let msg := str "Service '" ++ serviceTypeName ++ str "' is not available"
    { v with errorMessage := msg }
  else
    match createService serviceType with
    | some newService => { v with currentService := newService, errorMessage := [] }
    | none =>
      let msg := str "Failed to create service '" ++ serviceTypeName ++ str "'"
      { v with errorMessage := msg }

/-- `CitySearchViewModel::currentServiceName` (`city_search_viewmodel.cpp:62-65`). -/
def currentServiceName (v : BackendVM) : Str :=
  serviceName v.currentService

/-! ## Nominatim response parsing (`src/services/nominatim_service.cpp`) -/

/-- The `address` sub-object of a Nominatim record, with the keys
`createCityFromJson` reads; `none` models an absent key
(`QJsonObject::contains` false). -/
structure NomAddress where
  city : Option Str := none
  town : Option Str := none
  village : Option Str := none
  municipality : Option Str := none
  country : Option Str := none
deriving DecidableEq

/-- One element of the Nominatim response array, with the fields
`createCityFromJson` reads.  The numeric values of `lat`/`lon` are modelled
after parsing (`QString::toDouble`); a missing field parses to 0. -/
structure CityJson where
  display_name : Option Str := none
  lat : Rat := 0
  lon : Rat := 0
  address : NomAddress := {}
deriving DecidableEq

/-- `QJsonValue::toString` of a possibly missing field: empty when absent. -/
def jsonStr (o : Option Str) : Str := o.getD []

/-- `NominatimService::createCityFromJson` (`nominatim_service.cpp:141-176`):
pick the city name from address fields (falling back to the first
comma-separated part of the display name) and drop the record when the name
or the display name is empty. -/
def createCityFromJson (cityJson : CityJson) : Option City :=
  let displayName := jsonStr cityJson.display_name
  let address := cityJson.address
  let country := jsonStr address.country
  let cityName :=
    match address.city with
    | some s => s
    | none =>
      match address.town with
      | some s => s
      | none =>
        match address.village with
        | some s => s
        | none =>
          match address.municipality with
          | some s => s
          | none => firstPartS (str ", ") displayName
  if cityName.isEmpty || displayName.isEmpty then none
  else some ⟨cityName, displayName, country, cityJson.lat, cityJson.lon⟩

/-- The service-level statistics of `NominatimService`. -/
structure NomStats where
  lastError : Str := []
  successCount : Nat := 0
  failureCount : Nat := 0
deriving DecidableEq

/-- `NominatimService::updateStats` (`nominatim_service.cpp:205-214`). -/
def nomUpdateStats (s : NomStats) (success : Bool) (errorMessage : Str := []) : NomStats :=
  if success then { s with successCount := s.successCount + 1, lastError := [] }
  else { s with failureCount := s.failureCount + 1, lastError := errorMessage }

/-- The outcome of `QJsonDocument::fromJson` on a response body, as far as
`parseJsonResponse` inspects it: a parse error, a non-array document, or an
array whose elements may or may not be objects. -/
inductive NomResponse where
  | parseError (msg : Str)
  | notArray
  | array (values : List (Option CityJson))
deriving DecidableEq

/-- `NominatimService::parseJsonResponse` (`nominatim_service.cpp:86-139`):
non-object array elements are skipped, records missing essentials are dropped
by `createCityFromJson`, an empty city list is reported as a `searchError`,
a non-empty one as `citiesFound`. -/
def parseJsonResponse (s : NomStats) (response : NomResponse) : NomStats × List SEvent :=
  match response with
  | .parseError msg =>
    let err := str "JSON parse error: " ++ msg
    (nomUpdateStats s false err, [.searchError err])
  | .notArray =>
    let err := str "Invalid response format"
    (nomUpdateStats s false err, [.searchError err])
  | .array values =>
    let cities := values.filterMap (fun v => v.bind createCityFromJson)
    if !cities.isEmpty then
      (nomUpdateStats s true, [.citiesFound cities])
    else
      let err := str "No cities found for your search query"
      (nomUpdateStats s false err, [.searchError err])

/-! ## Derived notions used by the verification -/

/-- No two retained cities are judged duplicates of each other (the City
invariant of §3 of the specification). -/
def NoDups (m : List City) : Prop :=
  m.Pairwise (fun a b => isDuplicate a b = false)

/-- Strict key order between cities. -/
def keyLT (a b : City) : Prop := strLtB (cityKey a) (cityKey b) = true

/-- The cities a single `filterDuplicates` pass accepts, described relative to
a context list `S` (the existing collection together with the batch members
accepted so far). -/
def accepted (S : List City) : List (Option City) → List City
  | [] => []
  | none :: cs => accepted S cs
  | some c :: cs =>
    if S.any (fun e => isDuplicate c e) then accepted S cs
    else c :: accepted (S ++ [c]) cs

/-- The re-established invariant of the aggregator: no two retained cities are
duplicates, and the collection is sorted by the comparator's order. -/
def GoodAgg (m : List City) : Prop :=
  NoDups m ∧ List.Sorted keyLE m

/-! ## Order lemmas for the lexicographic string comparison -/

theorem ratSub_eq (a b : Rat) : ratSub a b = a - b := by
  have ha : ((a.den : Rat)) ≠ 0 := by
    exact_mod_cast a.den_nz
  have hb : ((b.den : Rat)) ≠ 0 := by
    exact_mod_cast b.den_nz
  rw [ratSub, Rat.mkRat_eq_div]
  conv_rhs => rw [← Rat.num_div_den a, ← Rat.num_div_den b]
  rw [div_sub_div _ _ ha hb]
  push_cast
  ring_nf

theorem charLtB_irrefl (a : Char) : charLtB a a = false := by
  simp [charLtB]

theorem charLtB_asymm {a b : Char} (h : charLtB a b = true) : charLtB b a = false := by
  simp only [charLtB, decide_eq_true_iff, decide_eq_false_iff_not] at *
  exact lt_asymm h

theorem charLtB_trans {a b c : Char} (h1 : charLtB a b = true) (h2 : charLtB b c = true) :
    charLtB a c = true := by
  simp only [charLtB, decide_eq_true_iff] at *
  exact lt_trans h1 h2

theorem charLtB_conn {a b : Char} (h1 : charLtB a b = false) (h2 : charLtB b a = false) :
    a = b := by
  simp only [charLtB, decide_eq_false_iff_not] at *
  exact le_antisymm (not_lt.mp h2) (not_lt.mp h1)

theorem charLtB_ne {a b : Char} (h : charLtB a b = true) : a ≠ b := by
  simp only [charLtB, decide_eq_true_iff] at h
  exact ne_of_lt h

theorem strLtB_irrefl (x : Str) : strLtB x x = false := by
  induction x with
  | nil => rfl
  | cons a as ih => simp [strLtB, charLtB_irrefl, ih]

theorem strLtB_asymm {x y : Str} (h : strLtB x y = true) : strLtB y x = false := by
  induction x generalizing y with
  | nil =>
    cases y with
    | nil => simp [strLtB] at h
    | cons b bs => rfl
  | cons a as ih =>
    cases y with
    | nil => simp [strLtB] at h
    | cons b bs =>
      simp only [strLtB, Bool.or_eq_true, Bool.and_eq_true, beq_iff_eq] at h
      rcases h with h | ⟨rfl, h⟩
      · have hba := charLtB_asymm h
        have hne := charLtB_ne h
        simp [strLtB, hba, Ne.symm hne]
      · simp [strLtB, charLtB_irrefl, ih h]

theorem strLtB_trans {x y z : Str} (h1 : strLtB x y = true) (h2 : strLtB y z = true) :
    strLtB x z = true := by
  induction x generalizing y z with
  | nil =>
    cases y with
    | nil => simp [strLtB] at h1
    | cons b bs =>
      cases z with
      | nil => simp [strLtB] at h2
      | cons c cs => rfl
  | cons a as ih =>
    cases y with
    | nil => simp [strLtB] at h1
    | cons b bs =>
      cases z with
      | nil => simp [strLtB] at h2
      | cons c cs =>
        simp only [strLtB, Bool.or_eq_true, Bool.and_eq_true, beq_iff_eq] at h1 h2 ⊢
        rcases h1 with h1 | ⟨rfl, h1⟩
        · rcases h2 with h2 | ⟨rfl, h2⟩
          · exact Or.inl (charLtB_trans h1 h2)
          · exact Or.inl h1
        · rcases h2 with h2 | ⟨rfl, h2⟩
          · exact Or.inl h2
          · exact Or.inr ⟨rfl, ih h1 h2⟩

theorem strLtB_conn {x y : Str} (h1 : strLtB x y = false) (h2 : strLtB y x = false) :
    x = y := by
  induction x generalizing y with
  | nil =>
    cases y with
    | nil => rfl
    | cons b bs => simp [strLtB] at h1
  | cons a as ih =>
    cases y with
    | nil => simp [strLtB] at h2
    | cons b bs =>
      simp only [strLtB, Bool.or_eq_false_iff, Bool.and_eq_false_iff] at h1 h2
      obtain ⟨hab, h1'⟩ := h1
      obtain ⟨hba, h2'⟩ := h2
      have hcab : a = b := charLtB_conn hab hba
      subst hcab
      rcases h1' with h1' | h1'
      · simp at h1'
      · rcases h2' with h2' | h2'
        · simp at h2'
        · exact congrArg (a :: ·) (ih h1' h2')

/-! ## Symmetry of the duplicate test and key facts -/

theorem ciEq_symm (a b : Str) : ciEq a b = ciEq b a := by
  simp only [ciEq, beq_iff_eq]
  by_cases h : lowerS a = lowerS b
  · simp [h]
  · simp [h, Ne.symm h]

theorem qAbs_neg (x : Rat) : qAbs (-x) = qAbs x := by
  unfold qAbs
  rcases lt_trichotomy x 0 with h | h | h
  · have h1 : ¬(-x < 0) := by linarith
    rw [if_neg h1, if_pos h]
  · subst h; norm_num
  · have h1 : -x < 0 := by linarith
    have h2 : ¬(x < 0) := by linarith
    rw [if_pos h1, if_neg h2, neg_neg]

theorem qAbs_sub_comm (x y : Rat) : qAbs (x - y) = qAbs (y - x) := by
  have h : y - x = -(x - y) := by ring
  rw [h, qAbs_neg]

theorem areCoordinatesClose_symm (lat1 lon1 lat2 lon2 : Rat) :
    areCoordinatesClose lat1 lon1 lat2 lon2 = areCoordinatesClose lat2 lon2 lat1 lon1 := by
  simp only [areCoordinatesClose, ratSub_eq]
  rw [qAbs_sub_comm lat1 lat2, qAbs_sub_comm lon1 lon2]

theorem isDuplicate_symm (a b : City) : isDuplicate a b = isDuplicate b a := by
  simp only [isDuplicate]
  rw [ciEq_symm a.displayName, ciEq_symm a.name, ciEq_symm a.country,
    areCoordinatesClose_symm]

/-- Two non-duplicate cities have distinct sort keys (a shared key would make
the first duplicate check fire). -/
theorem cityKey_ne_of_not_dup {a b : City} (h : isDuplicate a b = false) :
    cityKey a ≠ cityKey b := by
  simp only [isDuplicate, Bool.or_eq_false_iff] at h
  have h1 := h.1.1
  simp only [ciEq, beq_eq_false_iff_ne, ne_eq] at h1
  exact h1

/-! ## The duplicate-freeness invariant and sortedness -/

instance : IsAntisymm City keyLT where
  antisymm a b h1 h2 := absurd h2 (by simp [keyLT, strLtB_asymm h1])

instance : IsTotal City keyLE where
  total a b := by
    unfold keyLE
    cases h : strLtB (cityKey b) (cityKey a) with
    | false => exact Or.inl rfl
    | true => exact Or.inr (strLtB_asymm h)

instance : IsTrans City keyLE where
  trans a b c h1 h2 := by
    unfold keyLE at *
    cases h3 : strLtB (cityKey c) (cityKey a) with
    | false => rfl
    | true =>
      exfalso
      cases h4 : strLtB (cityKey b) (cityKey c) with
      | true => exact absurd (strLtB_trans h4 h3) (by simp [h1])
      | false =>
        have : cityKey b = cityKey c := strLtB_conn h4 h2
        rw [this] at h1
        exact absurd h3 (by simp [h1])

theorem noDups_perm {l l' : List City} (h : NoDups l) (hp : l.Perm l') : NoDups l' :=
  h.perm hp (by
    intro x y hxy
    rwa [isDuplicate_symm])

theorem sortCities_sorted (m : List City) : List.Sorted keyLE (sortCities m) :=
  List.sorted_insertionSort keyLE m

theorem sortCities_perm (m : List City) : (sortCities m).Perm m :=
  List.perm_insertionSort keyLE m

/-- On a duplicate-free list, sortedness for the comparator's non-strict order
upgrades to strict key sortedness. -/
theorem sorted_keyLT_of_noDups {m : List City} (hs : List.Sorted keyLE m) (hd : NoDups m) :
    List.Sorted keyLT m := by
  have := (List.Pairwise.and hs hd)
  refine this.imp ?_
  intro a b hab
  obtain ⟨hle, hnd⟩ := hab
  unfold keyLE at hle
  unfold keyLT
  cases h : strLtB (cityKey a) (cityKey b) with
  | true => rfl
  | false => exact absurd (strLtB_conn h hle) (cityKey_ne_of_not_dup hnd)

/-- Strict key order implies the full City ordering (its first lexicographic
component is already strict). -/
theorem cityLE_of_keyLT {a b : City} (h : keyLT a b) : cityLE a b :=
  Or.inl h

/-- Two sorted duplicate-free permutations of one another are equal: with all
sort keys distinct, every correct sort of the same collection produces the
same list. -/
theorem eq_of_perm_sorted_noDups {l₁ l₂ : List City} (hp : l₁.Perm l₂)
    (hs₁ : List.Sorted keyLE l₁) (hs₂ : List.Sorted keyLE l₂) (hd : NoDups l₁) :
    l₁ = l₂ := by
  have hd₂ : NoDups l₂ := noDups_perm hd hp
  exact List.eq_of_perm_of_sorted (r := keyLT) hp
    (sorted_keyLT_of_noDups hs₁ hd) (sorted_keyLT_of_noDups hs₂ hd₂)

/-! ## A recursion-friendly description of the batch filter -/


theorem any_perm {l l' : List City} (p : City → Bool) (hp : l.Perm l') :
    l.any p = l'.any p := by
  cases h : l'.any p with
  | false =>
    rw [List.any_eq_false] at h ⊢
    exact fun x hx => h x (hp.mem_iff.mp hx)
  | true =>
    rw [List.any_eq_true] at h ⊢
    obtain ⟨x, hx, hpx⟩ := h
    exact ⟨x, hp.mem_iff.mpr hx, hpx⟩

theorem accepted_nil (S : List City) : accepted S [] = [] := rfl

theorem accepted_cons_none (S : List City) (cs : List (Option City)) :
    accepted S (none :: cs) = accepted S cs := rfl

theorem accepted_cons_some (S : List City) (c : City) (cs : List (Option City)) :
    accepted S (some c :: cs) =
      if S.any (fun e => isDuplicate c e) then accepted S cs
      else c :: accepted (S ++ [c]) cs := rfl

theorem addCity_some (m : List City) (c : City) :
    addCity m (some c) =
      if m.any (fun existing => isDuplicate c existing) then m
      else sortCities (m ++ [c]) := rfl

theorem foldl_fdStep (m : List City) (cs : List (Option City)) :
    ∀ acc, (cs.filterMap id).foldl (fdStep m) acc = acc ++ accepted (m ++ acc) cs := by
  induction cs with
  | nil => intro acc; simp [accepted_nil]
  | cons c? cs ih =>
    intro acc
    cases c? with
    | none => simpa [accepted_cons_none] using ih acc
    | some c =>
      simp only [List.filterMap_cons, id, List.foldl_cons]
      have hcond : (m.any (fun existing => isDuplicate c existing)
            || acc.any (fun other => isDuplicate c other))
          = (m ++ acc).any (fun e => isDuplicate c e) := (List.any_append).symm
      rw [accepted_cons_some]
      by_cases h : ((m ++ acc).any (fun e => isDuplicate c e)) = true
      · rw [show fdStep m acc c = acc by unfold fdStep; rw [hcond, if_pos h]]
        rw [ih acc, if_pos h]
      · rw [show fdStep m acc c = acc ++ [c] by unfold fdStep; rw [hcond, if_neg h]]
        rw [ih (acc ++ [c]), if_neg h]
        simp [List.append_assoc]

theorem filterDuplicates_eq_accepted (m : List City) (cs : List (Option City)) :
    filterDuplicates m cs = accepted m cs := by
  have := foldl_fdStep m cs []
  simpa [filterDuplicates] using this

theorem accepted_perm_ctx (cs : List (Option City)) :
    ∀ {S S' : List City}, S.Perm S' → accepted S cs = accepted S' cs := by
  induction cs with
  | nil => intro S S' _; rfl
  | cons c? cs ih =>
    intro S S' hp
    cases c? with
    | none => exact ih hp
    | some c =>
      rw [accepted_cons_some, accepted_cons_some, any_perm _ hp]
      by_cases h : (S'.any (fun e => isDuplicate c e)) = true
      · rw [if_pos h, if_pos h]; exact ih hp
      · rw [if_neg h, if_neg h]
        exact congrArg (c :: ·) (ih (hp.append_right [c]))

theorem accepted_noDups (cs : List (Option City)) :
    ∀ {S : List City}, NoDups S → NoDups (S ++ accepted S cs) := by
  induction cs with
  | nil => intro S h; simpa [accepted] using h
  | cons c? cs ih =>
    intro S h
    cases c? with
    | none => exact ih h
    | some c =>
      rw [accepted_cons_some]
      by_cases hany : (S.any (fun e => isDuplicate c e)) = true
      · rw [if_pos hany]; exact ih h
      · rw [if_neg hany]
        have hno : ∀ e ∈ S, isDuplicate c e = false := by
          intro e he
          have := (List.any_eq_false).mp (Bool.of_not_eq_true hany) e he
          simpa using this
        have hS1 : NoDups (S ++ [c]) := by
          refine (List.pairwise_append).mpr ⟨h, List.pairwise_singleton _ _, ?_⟩
          intro a ha b hb
          rw [List.mem_singleton] at hb
          subst hb
          rw [isDuplicate_symm]
          exact hno a ha
        have := ih hS1
        rwa [List.append_assoc, List.singleton_append] at this

/-! ## The aggregator invariant -/


theorem goodAgg_sortCities {x : List City} (h : NoDups x) : GoodAgg (sortCities x) :=
  ⟨noDups_perm h (sortCities_perm x).symm, sortCities_sorted x⟩

theorem addCity_good {m : List City} (h : GoodAgg m) (c? : Option City) :
    GoodAgg (addCity m c?) := by
  cases c? with
  | none => exact h
  | some c =>
    rw [addCity_some]
    by_cases hany : (m.any (fun existing => isDuplicate c existing)) = true
    · rw [if_pos hany]; exact h
    · rw [if_neg hany]
      apply goodAgg_sortCities
      refine (List.pairwise_append).mpr ⟨h.1, List.pairwise_singleton _ _, ?_⟩
      intro a ha b hb
      rw [List.mem_singleton] at hb
      subst hb
      rw [isDuplicate_symm]
      have := (List.any_eq_false).mp (Bool.of_not_eq_true hany) a ha
      simpa using this

theorem addCities_good {m : List City} (h : GoodAgg m) (cs : List (Option City)) :
    GoodAgg (addCities m cs) := by
  unfold addCities
  by_cases he : cs.isEmpty
  · rw [if_pos he]; exact h
  · rw [if_neg he]
    by_cases hu : (filterDuplicates m cs).isEmpty
    · simp only [hu, if_true]; exact h
    · simp only [hu, Bool.false_eq_true, if_false]
      apply goodAgg_sortCities
      rw [filterDuplicates_eq_accepted]
      exact accepted_noDups cs h.1

theorem goodAgg_empty : GoodAgg [] := ⟨List.Pairwise.nil, List.sorted_nil⟩

theorem applyOp_good {m : List City} (h : GoodAgg m) (op : AggOp) :
    GoodAgg (applyOp m op) := by
  cases op with
  | add c? => exact addCity_good h c?
  | addBatch cs => exact addCities_good h cs
  | clear => exact goodAgg_empty

theorem foldl_applyOp_good {m : List City} (h : GoodAgg m) (ops : List AggOp) :
    GoodAgg (ops.foldl applyOp m) := by
  induction ops generalizing m with
  | nil => exact h
  | cons op ops ih => exact ih (applyOp_good h op)

theorem runOps_good (ops : List AggOp) : GoodAgg (runOps ops) :=
  foldl_applyOp_good goodAgg_empty ops

/-! ## Batch insertion agrees with repeated single insertion -/

theorem addCities_def (m : List City) (cs : List (Option City)) :
    addCities m cs =
      if cs.isEmpty then m
      else if (filterDuplicates m cs).isEmpty then m
      else sortCities (m ++ filterDuplicates m cs) := rfl

theorem noDups_append_single {m : List City} {c : City} (hnd : NoDups m)
    (hany : m.any (fun existing => isDuplicate c existing) = false) :
    NoDups (m ++ [c]) := by
  refine (List.pairwise_append).mpr ⟨hnd, List.pairwise_singleton _ _, ?_⟩
  intro a ha b hb
  rw [List.mem_singleton] at hb
  subst hb
  rw [isDuplicate_symm]
  have := (List.any_eq_false).mp hany a ha
  simpa using this

theorem addCities_eq_foldl {m : List City} (cs : List (Option City)) (h : GoodAgg m) :
    addCities m cs = cs.foldl addCity m := by
  induction cs generalizing m with
  | nil => rfl
  | cons c? cs ih =>
    rw [List.foldl_cons]
    cases c? with
    | none =>
      have hfd : filterDuplicates m (none :: cs) = filterDuplicates m cs := by
        rw [filterDuplicates_eq_accepted, filterDuplicates_eq_accepted, accepted_cons_none]
      rw [show addCity m none = m from rfl, ← ih h]
      rw [addCities_def m (none :: cs), addCities_def m cs, hfd]
      cases cs with
      | nil => simp [filterDuplicates]
      | cons d ds => rfl
    | some c =>
      by_cases hdup : (m.any (fun existing => isDuplicate c existing)) = true
      · have hfd : filterDuplicates m (some c :: cs) = filterDuplicates m cs := by
          rw [filterDuplicates_eq_accepted, filterDuplicates_eq_accepted,
            accepted_cons_some, if_pos hdup]
        rw [addCity_some, if_pos hdup, ← ih h]
        rw [addCities_def m (some c :: cs), addCities_def m cs, hfd]
        cases cs with
        | nil =>
          have : filterDuplicates m ([] : List (Option City)) = [] := rfl
          simp [this]
        | cons d ds => rfl
      · have hanyf : (m.any (fun existing => isDuplicate c existing)) = false :=
          Bool.of_not_eq_true hdup
        have hnd1 : NoDups (m ++ [c]) := noDups_append_single h.1 hanyf
        have hm₁ : GoodAgg (sortCities (m ++ [c])) := goodAgg_sortCities hnd1
        rw [addCity_some, if_neg hdup, ← ih hm₁]
        -- both sides filter the tail against (a permutation of) m ++ [c]
        have hperm : (sortCities (m ++ [c])).Perm (m ++ [c]) := sortCities_perm _
        have hu' : filterDuplicates (sortCities (m ++ [c])) cs = accepted (m ++ [c]) cs := by
          rw [filterDuplicates_eq_accepted]
          exact accepted_perm_ctx cs hperm
        have hu : filterDuplicates m (some c :: cs) = c :: accepted (m ++ [c]) cs := by
          rw [filterDuplicates_eq_accepted, accepted_cons_some, if_neg hdup]
        rw [addCities_def m (some c :: cs), addCities_def (sortCities (m ++ [c])) cs,
          hu, hu']
        simp only [List.isEmpty_cons, Bool.false_eq_true, if_false]
        cases hcs : cs with
        | nil =>
          simp only [List.isEmpty_nil, if_true, accepted_nil, List.isEmpty_nil]
        | cons d ds =>
          simp only [List.isEmpty_cons, Bool.false_eq_true, if_false]
          by_cases hu2 : (accepted (m ++ [c]) (d :: ds)).isEmpty
          · rw [if_pos hu2]
            rw [List.isEmpty_iff] at hu2
            rw [hu2]
          · rw [if_neg hu2]
            -- two sorted, duplicate-free permutations of m ++ [c] ++ accepted …
            set u₂ := accepted (m ++ [c]) (d :: ds) with hu₂def
            have hnd2 : NoDups ((m ++ [c]) ++ u₂) := accepted_noDups (d :: ds) hnd1
            have hassoc : m ++ c :: u₂ = (m ++ [c]) ++ u₂ := by
              rw [List.append_assoc, List.singleton_append]
            have hperm1 : (sortCities (m ++ c :: u₂)).Perm ((m ++ [c]) ++ u₂) := by
              rw [← hassoc]; exact sortCities_perm _
            have hperm2 : (sortCities (sortCities (m ++ [c]) ++ u₂)).Perm ((m ++ [c]) ++ u₂) :=
              (sortCities_perm _).trans (hperm.append_right u₂)
            exact eq_of_perm_sorted_noDups (hperm1.trans hperm2.symm)
              (sortCities_sorted _) (sortCities_sorted _)
              (noDups_perm hnd2 hperm1.symm)

/-! ## Session state computation helpers -/

theorem setIsSearching_fst (v : VMState) (b : Bool) :
    (setIsSearching v b).1 = { v with isSearching := b } := by
  unfold setIsSearching
  by_cases h : (v.isSearching != b) = true
  · rw [if_pos h]
  · rw [if_neg h]
    have hb : v.isSearching = b := by simpa using h
    rw [← hb]

theorem setErrorMessage_fst (v : VMState) (msg : Str) :
    (setErrorMessage v msg).1 = { v with errorMessage := msg } := by
  unfold setErrorMessage
  by_cases h : (v.errorMessage != msg) = true
  · rw [if_pos h]
  · rw [if_neg h]
    have hb : v.errorMessage = msg := by simpa using h
    rw [← hb]

theorem vmApplyEvent_started (v : VMState) :
    vmApplyEvent v .started = { v with isSearching := true } := by
  simp [vmApplyEvent, setIsSearching_fst]

theorem vmApplyEvent_finished (v : VMState) :
    vmApplyEvent v .finished = { v with isSearching := false } := by
  simp [vmApplyEvent, setIsSearching_fst]

theorem vmApplyEvent_searchError (v : VMState) (msg : Str) :
    vmApplyEvent v (.searchError msg) = { v with errorMessage := msg } := by
  simp [vmApplyEvent, setErrorMessage_fst]

theorem vmApplyEvent_citiesFound (v : VMState) (cs : List City) :
    vmApplyEvent v (.citiesFound cs)
      = { v with cityList := addCities v.cityList (cs.map some) } := rfl

/-- Starting a fresh delayed search from an idle session: the aggregator and
error are cleared, the searching flag raises, and the operation goes pending. -/
theorem vmSearchCities_idle_delay (v : VMState) (q : Str)
    (hidle : v.service.isSearching = false)
    (hdelay : v.service.simulateDelay = true)
    (hq : (trimS q).isEmpty = false) :
    vmSearchCities v q =
      { cityList := [], errorMessage := [], isSearching := true,
        service := { v.service with
          backendCalls := v.service.backendCalls + 1,
          currentQuery := q, isSearching := true, timerPending := true } } := by
  unfold vmSearchCities mockSearchCities
  simp only [clearCities, setErrorMessage_fst, hq, Bool.false_eq_true, if_false,
    hidle, hdelay, if_true, vmApplyEvents, List.nil_append, List.foldl_cons,
    List.foldl_nil, vmApplyEvent_started]

/-- Starting a delayed search while one is pending: the previous operation is
cancelled first, and the session ends pending on the new query only. -/
theorem vmSearchCities_searching_delay (v : VMState) (q : Str)
    (hsearch : v.service.isSearching = true)
    (hdelay : v.service.simulateDelay = true)
    (hq : (trimS q).isEmpty = false) :
    vmSearchCities v q =
      { cityList := [], errorMessage := [], isSearching := true,
        service := { v.service with
          backendCalls := v.service.backendCalls + 1,
          currentQuery := q, isSearching := true, timerPending := true } } := by
  unfold vmSearchCities mockSearchCities mockCancelSearch
  simp only [clearCities, setErrorMessage_fst, hq, Bool.false_eq_true, if_false,
    hsearch, hdelay, if_true, vmApplyEvents, List.cons_append, List.nil_append,
    List.foldl_cons, List.foldl_nil, vmApplyEvent_started, vmApplyEvent_finished]

/-! ## The claims -/

/-- C1: the aggregator judges two cities duplicates exactly when at least one
of the three independent checks fires — case-insensitive display-name
equality, case-insensitive (name, country) equality, or both coordinate
differences strictly below 0.001; two cities with entirely different names are
not duplicates at a difference of exactly 0.001 on both axes, but are at
0.0009. -/
theorem C1_duplicate_policy :
    (∀ a b : City, isDuplicate a b = true ↔
      (lowerS a.displayName = lowerS b.displayName
        ∨ (lowerS a.name = lowerS b.name ∧ lowerS a.country = lowerS b.country)
        ∨ (qAbs (a.latitude - b.latitude) < mkRat 1 1000
            ∧ qAbs (a.longitude - b.longitude) < mkRat 1 1000)))
    ∧ isDuplicate ⟨str "Alpha", str "Alphaville", str "CA", 0, 0⟩
        ⟨str "Beta", str "Betatown", str "CB", mkRat 1 1000, mkRat 1 1000⟩ = false
    ∧ isDuplicate ⟨str "Alpha", str "Alphaville", str "CA", 0, 0⟩
        ⟨str "Gamma", str "Gammaburg", str "CC", mkRat 9 10000, mkRat 9 10000⟩ = true := by
  refine ⟨fun a b => ?_, by decide, by decide⟩
  simp [isDuplicate, ciEq, areCoordinatesClose, ratSub_eq, Bool.or_eq_true,
    Bool.and_eq_true, beq_iff_eq, decide_eq_true_iff, or_assoc]

/-- C3: after any sequence of aggregator operations, the retained cities are
in non-decreasing order under the total City ordering of
`CityModel::operator<=>` (lowercased display name, then country, then
latitude, then longitude). -/
theorem C3_sort_invariant (ops : List AggOp) : List.Sorted cityLE (runOps ops) := by
  have h := runOps_good ops
  exact (sorted_keyLT_of_noDups h.2 h.1).imp fun hab => cityLE_of_keyLT hab

/-- C6: `cancelSearch` is idempotent: with no pending operation it is a no-op
emitting nothing; with one pending it drops the searching flag, stops the
timer, emits exactly one `finished`, and the cancelled operation's completion
is suppressed (a subsequent completion attempt changes nothing and emits
nothing). -/
theorem C6_cancel_idempotent (s : MockState) :
    (s.isSearching = false → mockCancelSearch s = (s, []))
    ∧ (s.isSearching = true →
        (mockCancelSearch s).1.isSearching = false
        ∧ (mockCancelSearch s).1.timerPending = false
        ∧ (mockCancelSearch s).2 = [SEvent.finished])
    ∧ simulateSearchCompleted (mockCancelSearch s).1 = ((mockCancelSearch s).1, [])
    ∧ mockCancelSearch (mockCancelSearch s).1 = ((mockCancelSearch s).1, []) := by
  unfold mockCancelSearch simulateSearchCompleted
  cases h : s.isSearching with
  | false => simp [h]
  | true => simp [h]

/-- Witness for C6 at a pending and at an idle service state. -/
theorem C6_cancel_idempotent_witness :
    mockCancelSearch { isSearching := false, currentQuery := str "Berlin" }
        = ({ isSearching := false, currentQuery := str "Berlin" }, [])
    ∧ (mockCancelSearch { isSearching := true, timerPending := true }).1.isSearching = false := by
  refine ⟨(C6_cancel_idempotent _).1 rfl, ((C6_cancel_idempotent _).2.1 rfl).1⟩

/-- C7 counterexample: the aggregator itself does not reject a city record
whose `name` is missing (empty) — `addCity` inserts it, contradicting the
claim that `add` silently drops records missing their name. -/
theorem C7_counterexample :
    addCity [] (some ⟨[], str "Somewhere, Atlantis", str "Atlantis", mkRat 1 1, mkRat 2 1⟩)
      = [⟨[], str "Somewhere, Atlantis", str "Atlantis", mkRat 1 1, mkRat 2 1⟩] := by
  decide

/-- C7 (amended): null inputs are silently dropped by both `add` and
`addBatch` with no error reported; records missing their name or display name
are rejected earlier, at JSON translation time — `createCityFromJson` returns
null for them, so every city it produces has a non-empty name and display
name, and the null is then dropped by the aggregator. -/
theorem C7_silent_drop (m : List City) (cs : List (Option City)) (j : CityJson) (c : City)
    (hc : createCityFromJson j = some c) :
    addCity m none = m
    ∧ addCities m (none :: cs) = addCities m cs
    ∧ c.name ≠ [] ∧ c.displayName ≠ [] := by
  refine ⟨rfl, ?_, ?_⟩
  · have hfd : filterDuplicates m (none :: cs) = filterDuplicates m cs := by
      rw [filterDuplicates_eq_accepted, filterDuplicates_eq_accepted, accepted_cons_none]
    rw [addCities_def m (none :: cs), addCities_def m cs, hfd]
    cases cs with
    | nil => simp [filterDuplicates]
    | cons d ds => rfl
  · unfold createCityFromJson at hc
    simp only at hc
    split at hc
    · exact absurd hc (by simp)
    · next hguard =>
      injection hc with hc'
      subst hc'
      rw [Bool.not_eq_true, Bool.or_eq_false_iff] at hguard
      constructor <;> simp_all [List.isEmpty_iff]

/-- Witness for C7 at a well-formed Nominatim record. -/
theorem C7_silent_drop_witness :
    addCity [] none = []
    ∧ (⟨str "Berlin", str "Berlin, Germany", str "Germany", mkRat 1 1, mkRat 2 1⟩ : City).name ≠ [] := by
  have h := C7_silent_drop [] []
    { display_name := some (str "Berlin, Germany"), lat := mkRat 1 1, lon := mkRat 2 1,
      address := { city := some (str "Berlin"), country := some (str "Germany") } }
    ⟨str "Berlin", str "Berlin, Germany", str "Germany", mkRat 1 1, mkRat 2 1⟩
    (by decide)
  exact ⟨h.1, h.2.2.1⟩

/-- C8: setting the backend by any name that is not a listed kind falls back
deterministically to the default backend with no error: afterwards the current
backend name is the default kind's name and the error message is empty. -/
theorem C8_unknown_backend (v : BackendVM) (name : Str) (h : name ∉ availableServices) :
    currentServiceName (setServiceType v name) = serviceTypeToString defaultService
    ∧ (setServiceType v name).errorMessage = [] := by
  simp only [availableServices, List.mem_cons, List.not_mem_nil, or_false] at h
  push_neg at h
  obtain ⟨h1, h2⟩ := h
  have h1' : ¬ name = str "Nominatim" := by simpa [serviceTypeToString] using h1
  have h2' : ¬ name = str "Mock" := by simpa [serviceTypeToString] using h2
  simp [setServiceType, serviceTypeFromString, h1', h2', defaultService,
    isServiceAvailable, createService, currentServiceName, serviceName,
    serviceTypeToString]

/-- Witness for C8 at the spec's example name. -/
theorem C8_unknown_backend_witness :
    currentServiceName (setServiceType {} (str "DoesNotExist")) = serviceTypeToString defaultService := by
  exact (C8_unknown_backend {} (str "DoesNotExist") (by decide)).1

/-- C9: when a completed backend response contains zero city records, the
backend emits a `searchError` (never a `citiesFound` with an empty batch), the
failure counter is incremented, the success counter is unchanged, and an error
message is recorded. -/
theorem C9_no_results_error (s : NomStats) (values : List (Option CityJson))
    (h : values.filterMap (fun v => v.bind createCityFromJson) = []) :
    parseJsonResponse s (.array values)
      = ({ s with
            failureCount := s.failureCount + 1,
            lastError := str "No cities found for your search query" },
         [SEvent.searchError (str "No cities found for your search query")])
    ∧ (parseJsonResponse s (.array values)).1.successCount = s.successCount
    ∧ (parseJsonResponse s (.array values)).1.lastError ≠ [] := by
  refine ⟨?_, ?_, ?_⟩
  · simp [parseJsonResponse, h, nomUpdateStats]
  · simp [parseJsonResponse, h, nomUpdateStats]
  · have hle : (parseJsonResponse s (.array values)).1.lastError
        = str "No cities found for your search query" := by
      simp [parseJsonResponse, h, nomUpdateStats]
    rw [hle]
    decide

/-- Witness for C9: a response array of one non-object element. -/
theorem C9_no_results_error_witness :
    parseJsonResponse {} (.array [none])
      = ({ failureCount := 1,
           lastError := str "No cities found for your search query" : NomStats },
         [SEvent.searchError (str "No cities found for your search query")]) := by
  exact (C9_no_results_error {} [none] (by decide)).1

/-- C10: the `isSearchingChanged` and `errorMessageChanged` notifications are
emitted exactly when the stored value actually changes; setting a property to
its current value emits nothing and leaves the state untouched. -/
theorem C10_change_notifications (v : VMState) (b : Bool) (msg : Str) :
    ((setIsSearching v b).2 = if v.isSearching == b then [] else [VMEvent.isSearchingChanged])
    ∧ setIsSearching v v.isSearching = (v, [])
    ∧ ((setErrorMessage v msg).2 = if v.errorMessage == msg then [] else [VMEvent.errorMessageChanged])
    ∧ setErrorMessage v v.errorMessage = (v, [])
    ∧ (setIsSearching v b).1.isSearching = b
    ∧ (setErrorMessage v msg).1.errorMessage = msg := by
  refine ⟨?_, ?_, ?_, ?_, ?_, ?_⟩
  · unfold setIsSearching
    by_cases h : v.isSearching = b <;> simp [h, bne]
  · unfold setIsSearching
    simp
  · unfold setErrorMessage
    by_cases h : v.errorMessage = msg <;> simp [h, bne]
  · unfold setErrorMessage
    simp
  · rw [setIsSearching_fst]
  · rw [setErrorMessage_fst]

/-- C4 counterexample: on an empty query the backend IS invoked — the guard
lives inside the backend's `searchCities`, not in front of it.  The session
delegates unconditionally and the invocation count rises (while the error is
still reported synchronously). -/
theorem C4_counterexample :
    (vmSearchCities {} (str " ")).service.backendCalls = 1
    ∧ (vmSearchCities {} (str " ")).errorMessage ≠ [] := by
  decide

/-- C4 (amended): an empty or whitespace-only query is rejected synchronously
by the backend's own guard (which is invoked, emits `searchError` without
`started`, and returns): afterwards the error message is non-empty, the
failure counter rose by exactly one, the success counter is unchanged, the
aggregator is empty, and no operation was started. -/
theorem C4_empty_query (v : VMState) (q : Str) (hq : (trimS q).isEmpty = true) :
    vmSearchCities v q =
      { cityList := [],
        errorMessage := str "Please enter a search query",
        isSearching := v.isSearching,
        service := { v.service with
          backendCalls := v.service.backendCalls + 1,
          failureCount := v.service.failureCount + 1,
          lastError := str "Please enter a search query" } }
    ∧ str "Please enter a search query" ≠ ([] : Str) := by
  constructor
  · unfold vmSearchCities mockSearchCities
    simp only [clearCities, setErrorMessage_fst, hq, if_true, updateStats,
      Bool.false_eq_true, if_false, vmApplyEvents, List.foldl_cons, List.foldl_nil,
      vmApplyEvent_searchError]
  · decide

/-- Witness for C4 at a whitespace-only query. -/
theorem C4_empty_query_witness :
    vmSearchCities {} (str "  ") =
      { cityList := [],
        errorMessage := str "Please enter a search query",
        isSearching := false,
        service := { backendCalls := 1,
                     failureCount := 1,
                     lastError := str "Please enter a search query" } } := by
  exact (C4_empty_query {} (str "  ") (by decide)).1

/-- C5: a batch is filtered in a single pass against both the existing
collection and the batch members accepted earlier in the same batch; the
overall result equals repeated single `add` calls in batch order, and of
several mutually duplicate batch members only the earliest is retained. -/
theorem C5_batch_first_seen_wins (m : List City) (batch : List (Option City)) (a a1 a2 : City)
    (hnd : NoDups m) (hs : List.Sorted keyLE m)
    (h1 : isDuplicate a1 a = true) (h2 : isDuplicate a2 a = true)
    (hma : m.any (fun existing => isDuplicate a existing) = false) :
    addCities m batch = batch.foldl addCity m
    ∧ addCities m [some a, some a1, some a2] = sortCities (m ++ [a]) := by
  constructor
  · exact addCities_eq_foldl batch ⟨hnd, hs⟩
  · have hfd : filterDuplicates m [some a, some a1, some a2] = [a] := by
      rw [filterDuplicates_eq_accepted, accepted_cons_some,
        if_neg (show ¬(m.any fun e => isDuplicate a e) = true by simp [hma]),
        accepted_cons_some,
        if_pos (show ((m ++ [a]).any fun e => isDuplicate a1 e) = true by
          simp [List.any_append, h1]),
        accepted_cons_some,
        if_pos (show ((m ++ [a]).any fun e => isDuplicate a2 e) = true by
          simp [List.any_append, h2]),
        accepted_nil]
    rw [addCities_def, hfd]
    simp

/-- Witness for C5: a fresh aggregator and three mutually duplicate cities. -/
theorem C5_batch_first_seen_wins_witness :
    addCities [] [some ⟨str "Test", str "Test City", str "TC", mkRat 1 1, mkRat 1 1⟩,
        some ⟨str "Test2", str "test city", str "TC", mkRat 5 1, mkRat 5 1⟩,
        some ⟨str "Test3", str "TEST CITY", str "TC", mkRat 9 1, mkRat 9 1⟩]
      = sortCities ([] ++ [⟨str "Test", str "Test City", str "TC", mkRat 1 1, mkRat 1 1⟩]) := by
  exact (C5_batch_first_seen_wins [] []
    ⟨str "Test", str "Test City", str "TC", mkRat 1 1, mkRat 1 1⟩
    ⟨str "Test2", str "test city", str "TC", mkRat 5 1, mkRat 5 1⟩
    ⟨str "Test3", str "TEST CITY", str "TC", mkRat 9 1, mkRat 9 1⟩
    List.Pairwise.nil List.sorted_nil (by decide) (by decide) rfl).2

/-- C2 counterexample: when the second search call carries a whitespace-only
query, the backend's empty-query guard returns before the supersession cancel
runs, so the first operation stays pending and its eventual `citiesFound`
still mutates the aggregator and the success counter after the second call
has begun. -/
theorem C2_counterexample :
    (runSteps {} [.search (str "Berlin"), .search (str "   ")]).cityList = []
    ∧ (runSteps {} [.search (str "Berlin"), .search (str "   "), .timerFire]).cityList ≠ []
    ∧ (runSteps {} [.search (str "Berlin"), .search (str "   "), .timerFire]).service.successCount
      = (runSteps {} [.search (str "Berlin"), .search (str "   ")]).service.successCount + 1 := by
  decide

/-- C2 (amended): when the second search call carries a non-whitespace query,
starting it while an earlier operation is pending cancels that operation, and
its eventual events never reach the session: the end state (error, counters,
aggregator, service bookkeeping) is observably identical to running only the
second search. -/
theorem C2_supersession (v : VMState) (q1 q2 : Str)
    (hidle : v.service.isSearching = false)
    (hdelay : v.service.simulateDelay = true)
    (hq1 : (trimS q1).isEmpty = false)
    (hq2 : (trimS q2).isEmpty = false) :
    observable (runSteps v [.search q1, .search q2, .timerFire])
      = observable (runSteps v [.search q2, .timerFire]) := by
  simp only [runSteps]
  rw [vmSearchCities_idle_delay v q1 hidle hdelay hq1,
      vmSearchCities_idle_delay v q2 hidle hdelay hq2]
  rw [vmSearchCities_searching_delay _ q2 (by rfl) (by exact hdelay) (by exact hq2)]
  simp only [vmTimerFire, mockTimerFire, simulateSearchCompleted, mockResultsFor,
    updateStats, vmApplyEvents, List.foldl_cons, List.foldl_nil,
    vmApplyEvent_searchError, vmApplyEvent_finished, vmApplyEvent_citiesFound,
    observable, Bool.not_true, Bool.false_eq_true, if_false, if_true]
  by_cases hres : ((if (!v.service.customResults.isEmpty) = true then v.service.customResults
      else createMockCities v.service.includeDuplicates q2).isEmpty = true)
  · simp only [if_pos hres, List.foldl_cons, List.foldl_nil,
      vmApplyEvent_searchError, vmApplyEvent_finished]
  · simp only [if_neg hres, List.foldl_cons, List.foldl_nil,
      vmApplyEvent_citiesFound, vmApplyEvent_finished]

/-- Witness for C2 at a fresh session and two concrete queries. -/
theorem C2_supersession_witness :
    observable (runSteps {} [.search (str "Berlin"), .search (str "Paris"), .timerFire])
      = observable (runSteps {} [.search (str "Paris"), .timerFire]) := by
  exact C2_supersession {} (str "Berlin") (str "Paris") rfl rfl (by decide) (by decide)

/-- Witness for C3 at a concrete operation sequence. -/
theorem C3_sort_invariant_witness :
    List.Sorted cityLE (runOps
      [AggOp.addBatch [some ⟨str "Munich", str "Munich, Germany", str "Germany", mkRat 48 1, mkRat 11 1⟩,
        some ⟨str "Berlin", str "Berlin, Germany", str "Germany", mkRat 52 1, mkRat 13 1⟩],
       AggOp.add (some ⟨str "Lyon", str "Lyon, France", str "France", mkRat 45 1, mkRat 4 1⟩)]) := by
  exact C3_sort_invariant _

/-- Witness for C10 at a searching session. -/
theorem C10_change_notifications_witness :
    setIsSearching { isSearching := true } true = ({ isSearching := true }, []) := by
  exact (C10_change_notifications { isSearching := true } true []).2.1
